import Mathlib

/-!
Verification development for the news-monitor application (`src/app.py`).

The application scrapes news-listing pages for article links, diffs the
current url set against a persisted snapshot to detect new articles, and
renders article content on demand.  The browser, DOM and readability
library are external effects; here they appear as explicit oracle
parameters (`Except`-valued for fallible steps), and the pure logic of the
Python functions is translated directly:

* `fetch_links` (app.py lines 132-174): selector list construction,
  first-non-empty-rule loop, truncation to 10, exception handling;
* the "Check now" handler loop (app.py lines 251-280): per-source skip on
  empty extraction, cold-start, set-difference diff, snapshot replacement;
* `fetch_article_reader_mode` / `fetch_article_html` (app.py lines
  180-221): total wrappers that degrade failures to a placeholder string.
-/

/-- An extracted article: `{title, url}` as produced by the in-page JS
mapper in `fetch_links`.  Identity is the url field. -/
structure Article where
  title : String
  url : String
deriving DecidableEq, Repr

/-- Model of Python `urlparse(url).netloc` for the absolute http(s) urls
this application handles: the text between the `://` separator and the
next `/` (empty when the url has no scheme separator). -/
def netloc (url : String) : String :=
  (((url.splitOn "://").drop 1).headD "").splitOn "/" |>.headD ""

/-- `SITE_SELECTORS` (app.py lines 30-60): domain -> site-specific CSS
selector list; domains not in the table get `[]` (the `.get(domain, [])`
default). -/
def SITE_SELECTORS (domain : String) : List String :=
  if domain = "apnews.com" then
    ["a[href^=\x27https://apnews.com/article/\x27]"]
  else if domain = "news.sky.com" then
    ["a.sdc-site-tile__headline-link"]
  else if domain = "www.npr.org" then
    ["h2.title a"]
  else if domain = "www.upi.com" then
    ["a[href*=\x27/Odd_News/\x27]"]
  else if domain = "nypost.com" then
    ["a[href*=\x27/weird-but-true/\x27]"]
  else if domain = "www.huffpost.com" then
    ["a[href*=\x27/entry/\x27]", "a[href*=\x27/weird-news/\x27]"]
  else if domain = "www.scmp.com" then
    ["a[href*=\x27/offbeat/\x27]"]
  else []

/-- `GENERIC_SELECTORS` (app.py lines 63-71): generic fallback selectors
used for any site, in configured order. -/
def GENERIC_SELECTORS : List String :=
  ["a[href*=\x27/article\x27]",
   "a[href*=\x27/story/\x27]",
   "a[href*=\x27/weird\x27]",
   "a[href*=\x27/Odd_News\x27]",
   "a[href*=\x27/offbeat\x27]",
   "h3 a",
   "article a"]

/-- The in-page JS mapper of `fetch_links` (app.py lines 153-158): each
matched node yields `{title: innerText.trim(), url: href}` and matches
missing a non-empty title or url are discarded.  A raw node is the pair
(innerText, href). -/
def jsLinks (nodes : List (String × String)) : List Article :=
  (nodes.map (fun n => Article.mk n.1.trim n.2)).filter
    (fun a => !a.title.isEmpty && !a.url.isEmpty)

/-- A DOM-query oracle: for each selector, `page.eval_on_selector_all`
either throws (`Except.error ()`) or returns the matched raw nodes. -/
def DomQuery : Type := String → Except Unit (List (String × String))

/-- The surviving article list a single rule produces: zero on a thrown
query, otherwise the JS-filtered matches. -/
def ruleResult (query : DomQuery) (sel : String) : List Article :=
  match query sel with
  | Except.error _ => []
  | Except.ok nodes => jsLinks nodes

/-- The selector loop of `fetch_links` (app.py lines 148-164): try each
selector in order; a throwing query is skipped (`except: continue`); the
first non-empty link list is taken (`if links: articles = links; break`);
if no rule yields links the result is the initial `[]`. -/
def tryRules (query : DomQuery) : List String → List Article
  | [] => []
  | sel :: rest =>
    match query sel with
    | Except.error _ => tryRules query rest
    | Except.ok nodes =>
      let links := jsLinks nodes
      if links.isEmpty then tryRules query rest else links

/-- `fetch_links` (app.py lines 132-174).  `nav` models the fallible
navigation/session setup (everything up to and including `page.goto`);
on success the selector list is site-specific selectors followed by the
generic ones, the selector loop runs, and the result is truncated to 10.
On any exception the Streamlit UI shows an error message and the function
returns the empty list; the emitted UI message is the second component
(`none` on the success path). -/
def fetch_links (nav : Except String Unit) (url : String) (query : DomQuery) :
    List Article × Option String :=
  match nav with
  | Except.error e => ([], some ("Error scraping " ++ url ++ ": " ++ e))
  | Except.ok _ =>
    let domain := netloc url
    let selectors := SITE_SELECTORS domain ++ GENERIC_SELECTORS
    ((tryRules query selectors).take 10, none)

/-- The persisted snapshot store `state`: source identity -> optionally a
set of urls (`none` models `url not in state`). -/
def StateMap : Type := String → Option (Finset String)

/-- The per-source body of the "Check now" loop (app.py lines 258-278):
skip entirely when extraction found nothing; on a cold start report all
fresh articles and store the current url set; otherwise report the fresh
articles whose url is in `current - old` and store the current url set.
Returns (reported new articles, updated snapshot entry). -/
def checkSource (fresh : List Article) (prior : Option (Finset String)) :
    List Article × Option (Finset String) :=
  if fresh.isEmpty then ([], prior)
  else
    let current : Finset String := (fresh.map Article.url).toFinset
    match prior with
    | none => (fresh, some current)
    | some old =>
      (fresh.filter (fun a => decide (a.url ∈ current \ old)), some current)

/-- The "Check now" handler loop (app.py lines 256-280): iterate the
monitored urls sequentially; `fetch` abstracts `fetch_links`'s returned
article list; skipped sources leave the state untouched, others have their
entry replaced by `checkSource`'s result; reported articles accumulate in
iteration order. -/
def runCheck (fetch : String → List Article) (urls : List String)
    (state : StateMap) : List Article × StateMap :=
  match urls with
  | [] => ([], state)
  | url :: rest =>
    let fresh := fetch url
    if fresh.isEmpty then runCheck fetch rest state
    else
      let res := checkSource fresh (state url)
      let r := runCheck fetch rest (fun k => if k = url then res.2 else state k)
      (res.1 ++ r.1, r.2)

/-- The fallback content string both content renderers produce on an
internal failure (`f"<p>Error loading article: {e}</p>"`). -/
def errorFallback (e : String) : String :=
  "<p>Error loading article: " ++ e ++ "</p>"

/-- The fallible pipeline inside `fetch_article_reader_mode` (app.py lines
183-197): navigate and serialize the page (`nav`), run Readability over
the html (`doc`, yielding the cleaned summary html and the title),
re-serialize through BeautifulSoup (`soup`), and concatenate the title as
a heading with the body markup. -/
def readerPipeline (nav : Except String String)
    (doc : String → Except String (String × String))
    (soup : String → Except String String) : Except String String := do
  let html ← nav
  let (cleaned, title) ← doc html
  let body ← soup cleaned
  pure ("<h1>" ++ title ++ "</h1>" ++ body)

/-- `fetch_article_reader_mode` (app.py lines 180-200): the pipeline's
result, with any exception degraded to the error placeholder. -/
def fetch_article_reader_mode (nav : Except String String)
    (doc : String → Except String (String × String))
    (soup : String → Except String String) : String :=
  match readerPipeline nav doc soup with
  | Except.ok s => s
  | Except.error e => errorFallback e

/-- `fetch_article_html` (app.py lines 203-221): `nav` models navigation,
script/iframe/noscript removal and serialization; any exception is
degraded to the error placeholder. -/
def fetch_article_html (nav : Except String String) : String :=
  match nav with
  | Except.ok html => html
  | Except.error e => errorFallback e

/-! ### Basic list helpers -/

theorem isEmpty_false_of_ne_nil {α : Type} {l : List α} (h : l ≠ []) :
    l.isEmpty = false := by
  cases l with
  | nil => exact absurd rfl h
  | cons a t => rfl

theorem ne_nil_of_isEmpty_false {α : Type} {l : List α}
    (h : l.isEmpty = false) : l ≠ [] := by
  cases l with
  | nil => simp at h
  | cons a t => simp

/-! ### Per-source check lemmas -/

theorem checkSource_nil (prior : Option (Finset String)) :
    checkSource [] prior = ([], prior) := rfl

theorem checkSource_snd (fresh : List Article) (h : fresh ≠ [])
    (prior : Option (Finset String)) :
    (checkSource fresh prior).2 = some ((fresh.map Article.url).toFinset) := by
  cases prior <;> simp [checkSource, isEmpty_false_of_ne_nil h]

theorem filter_sdiff_toFinset (fresh : List Article) (S : Finset String) :
    ((fresh.filter
        (fun a => decide (a.url ∈ (fresh.map Article.url).toFinset \ S))).map
      Article.url).toFinset = (fresh.map Article.url).toFinset \ S := by
  ext x
  simp only [List.mem_toFinset, List.mem_map, List.mem_filter, Finset.mem_sdiff,
    decide_eq_true_eq]
  constructor
  · rintro ⟨a, ⟨ha, hC, hS⟩, rfl⟩
    exact ⟨⟨a, ha, rfl⟩, hS⟩
  · rintro ⟨⟨a, ha, rfl⟩, hS⟩
    exact ⟨a, ⟨ha, ⟨a, ha, rfl⟩, hS⟩, rfl⟩

theorem checkSource_self_diff (fresh : List Article) (h : fresh ≠ []) :
    checkSource fresh (some ((fresh.map Article.url).toFinset)) =
      ([], some ((fresh.map Article.url).toFinset)) := by
  simp [checkSource, isEmpty_false_of_ne_nil h, Finset.sdiff_self]

/-- Claim C1: for a source with a prior persisted snapshot `S` and a
non-empty fresh article list with url set `C`, the check body reports
exactly the fresh articles whose url lies in `C − S` (a sublist of the
fresh list, hence extraction order is preserved, and its url set is
exactly `C − S`), and stores `C` as the new snapshot — a full replacement
of `S`, not a union. -/
theorem check_prior_snapshot_diff (fresh : List Article) (S : Finset String)
    (h : fresh ≠ []) :
    checkSource fresh (some S) =
      (fresh.filter
        (fun a => decide (a.url ∈ (fresh.map Article.url).toFinset \ S)),
       some ((fresh.map Article.url).toFinset)) ∧
    ((checkSource fresh (some S)).1.map Article.url).toFinset =
      (fresh.map Article.url).toFinset \ S ∧
    (checkSource fresh (some S)).1.Sublist fresh := by
  have hmain : checkSource fresh (some S) =
      (fresh.filter
        (fun a => decide (a.url ∈ (fresh.map Article.url).toFinset \ S)),
       some ((fresh.map Article.url).toFinset)) := by
    simp [checkSource, isEmpty_false_of_ne_nil h]
  refine ⟨hmain, ?_, ?_⟩
  · rw [hmain]
    exact filter_sdiff_toFinset fresh S
  · rw [hmain]
    exact List.filter_sublist fresh

theorem check_prior_snapshot_diff_witness :
    (([Article.mk "A" "u1", Article.mk "C" "u3"] : List Article) ≠ []) ∧
    checkSource [Article.mk "A" "u1", Article.mk "C" "u3"]
        (some ({"u1", "u2"} : Finset String)) =
      ([Article.mk "C" "u3"], some ({"u1", "u3"} : Finset String)) := by
  refine ⟨by decide, ?_⟩
  have h := check_prior_snapshot_diff [Article.mk "A" "u1", Article.mk "C" "u3"]
    ({"u1", "u2"} : Finset String) (by decide)
  rw [h.1]
  decide

/-- Claim C2: for a source with no prior snapshot and a non-empty fresh
article list, the check body reports every fresh article as new and
establishes the snapshot as exactly the set of urls of the fresh
articles. -/
theorem check_cold_start (fresh : List Article) (h : fresh ≠ []) :
    checkSource fresh none = (fresh, some ((fresh.map Article.url).toFinset)) := by
  simp [checkSource, isEmpty_false_of_ne_nil h]

theorem check_cold_start_witness :
    (([Article.mk "A" "u1", Article.mk "B" "u2"] : List Article) ≠ []) ∧
    checkSource [Article.mk "A" "u1", Article.mk "B" "u2"] none =
      ([Article.mk "A" "u1", Article.mk "B" "u2"],
       some ({"u1", "u2"} : Finset String)) := by
  refine ⟨by decide, ?_⟩
  rw [check_cold_start [Article.mk "A" "u1", Article.mk "B" "u2"] (by decide)]
  decide

/-! ### Check-loop frame and stability lemmas -/

theorem runCheck_cons_skip (fetch : String → List Article) (url : String)
    (rest : List String) (state : StateMap)
    (hf : (fetch url).isEmpty = true) :
    runCheck fetch (url :: rest) state = runCheck fetch rest state := by
  simp [runCheck, hf]

theorem runCheck_cons_go_fst (fetch : String → List Article) (url : String)
    (rest : List String) (state : StateMap)
    (hf : (fetch url).isEmpty = false) :
    (runCheck fetch (url :: rest) state).1 =
      (checkSource (fetch url) (state url)).1 ++
      (runCheck fetch rest
        (fun k => if k = url then (checkSource (fetch url) (state url)).2
                  else state k)).1 := by
  simp [runCheck, hf]

theorem runCheck_cons_go_snd (fetch : String → List Article) (url : String)
    (rest : List String) (state : StateMap)
    (hf : (fetch url).isEmpty = false) :
    (runCheck fetch (url :: rest) state).2 =
      (runCheck fetch rest
        (fun k => if k = url then (checkSource (fetch url) (state url)).2
                  else state k)).2 := by
  simp [runCheck, hf]

theorem runCheck_frame (fetch : String → List Article) (urls : List String)
    (state : StateMap) (k : String) (h : fetch k = [] ∨ k ∉ urls) :
    (runCheck fetch urls state).2 k = state k := by
  induction urls generalizing state with
  | nil => rfl
  | cons url rest ih =>
    have h' : fetch k = [] ∨ k ∉ rest := by
      rcases h with h | h
      · exact Or.inl h
      · exact Or.inr (fun hm => h (List.mem_cons_of_mem url hm))
    cases hf : (fetch url).isEmpty with
    | true =>
      rw [runCheck_cons_skip fetch url rest state hf]
      exact ih state h'
    | false =>
      rw [runCheck_cons_go_snd fetch url rest state hf, ih _ h']
      have hk : k ≠ url := by
        intro hk
        rcases h with h | h
        · exact ne_nil_of_isEmpty_false hf (hk ▸ h)
        · exact h (hk ▸ List.mem_cons_self url rest)
      show (if k = url then (checkSource (fetch url) (state url)).2
            else state k) = state k
      exact if_neg hk

theorem runCheck_post (fetch : String → List Article) (urls : List String) :
    ∀ (state : StateMap) (u : String), u ∈ urls → fetch u ≠ [] →
    (runCheck fetch urls state).2 u =
      some (((fetch u).map Article.url).toFinset) := by
  induction urls with
  | nil =>
    intro state u hu
    exact absurd hu (List.not_mem_nil u)
  | cons url rest ih =>
    intro state u hu hne
    by_cases hr : u ∈ rest
    · cases hf : (fetch url).isEmpty with
      | true =>
        rw [runCheck_cons_skip fetch url rest state hf]
        exact ih _ u hr hne
      | false =>
        rw [runCheck_cons_go_snd fetch url rest state hf]
        exact ih _ u hr hne
    · have hu' : u = url := by
        rcases List.mem_cons.mp hu with h | h
        · exact h
        · exact absurd h hr
      subst hu'
      have hf : (fetch u).isEmpty = false := isEmpty_false_of_ne_nil hne
      rw [runCheck_cons_go_snd fetch u rest state hf,
        runCheck_frame fetch rest _ u (Or.inr hr)]
      show (if u = u then (checkSource (fetch u) (state u)).2
            else state u) = some (((fetch u).map Article.url).toFinset)
      rw [if_pos rfl]
      exact checkSource_snd (fetch u) hne (state u)

theorem runCheck_stable (fetch : String → List Article) (urls : List String) :
    ∀ (state : StateMap),
    (∀ u ∈ urls, fetch u = [] ∨
      state u = some (((fetch u).map Article.url).toFinset)) →
    (runCheck fetch urls state).1 = [] ∧
    ∀ k, (runCheck fetch urls state).2 k = state k := by
  induction urls with
  | nil => exact fun state _ => ⟨rfl, fun k => rfl⟩
  | cons url rest ih =>
    intro state h
    cases hf : (fetch url).isEmpty with
    | true =>
      rw [runCheck_cons_skip fetch url rest state hf]
      exact ih state (fun u hu => h u (List.mem_cons_of_mem url hu))
    | false =>
      have hne : fetch url ≠ [] := ne_nil_of_isEmpty_false hf
      have hstate : state url = some (((fetch url).map Article.url).toFinset) := by
        rcases h url (List.mem_cons_self url rest) with h1 | h1
        · exact absurd h1 hne
        · exact h1
      have hres : checkSource (fetch url) (state url) =
          ([], some (((fetch url).map Article.url).toFinset)) := by
        rw [hstate]
        exact checkSource_self_diff (fetch url) hne
      have hpt : ∀ m,
          (fun k => if k = url then (checkSource (fetch url) (state url)).2
                    else state k) m = state m := by
        intro m
        show (if m = url then (checkSource (fetch url) (state url)).2
              else state m) = state m
        by_cases hk : m = url
        · subst hk
          rw [if_pos rfl, hres]
          exact hstate.symm
        · exact if_neg hk
      have hresth := ih
        (fun k => if k = url then (checkSource (fetch url) (state url)).2
                  else state k)
        (by
          intro u hu
          rw [hpt u]
          exact h u (List.mem_cons_of_mem url hu))
      refine ⟨?_, ?_⟩
      · rw [runCheck_cons_go_fst fetch url rest state hf, hresth.1,
          List.append_nil, hres]
      · intro m
        rw [runCheck_cons_go_snd fetch url rest state hf, hresth.2 m]
        exact hpt m

/-- Claim C3: for a source whose fresh extraction result is the empty
list, the per-source check body reports no new articles and returns the
prior snapshot entry untouched, and a whole check run leaves the stored
snapshot entry of such a source exactly equal to its prior value. -/
theorem check_empty_extraction_skip (fetch : String → List Article)
    (urls : List String) (state : StateMap) (k : String) (h : fetch k = []) :
    checkSource (fetch k) (state k) = ([], state k) ∧
    (runCheck fetch urls state).2 k = state k := by
  constructor
  · rw [h]
    exact checkSource_nil (state k)
  · exact runCheck_frame fetch urls state k (Or.inl h)

theorem check_empty_extraction_skip_witness :
    ((fun _ : String => ([] : List Article)) "https://a.example" = []) ∧
    (checkSource ((fun _ : String => ([] : List Article)) "https://a.example")
        ((fun _ => some ({"u1"} : Finset String) : StateMap) "https://a.example") =
      ([], (fun _ => some ({"u1"} : Finset String) : StateMap) "https://a.example") ∧
    (runCheck (fun _ : String => ([] : List Article)) ["https://a.example"]
        (fun _ => some ({"u1"} : Finset String) : StateMap)).2 "https://a.example" =
      (fun _ => some ({"u1"} : Finset String) : StateMap) "https://a.example") :=
  ⟨rfl, check_empty_extraction_skip (fun _ => []) ["https://a.example"]
    (fun _ => some {"u1"}) "https://a.example" rfl⟩

/-- Claim C10: a single check run modifies the snapshot store only at
identities of listed sources whose extraction returned a non-empty list;
every identity not in the monitored list, and every listed source with an
empty extraction, keeps exactly its prior entry. -/
theorem run_check_modifies_only_nonempty_listed
    (fetch : String → List Article) (urls : List String) (state : StateMap)
    (k : String) (h : k ∉ urls ∨ fetch k = []) :
    (runCheck fetch urls state).2 k = state k :=
  runCheck_frame fetch urls state k h.symm

theorem run_check_modifies_only_nonempty_listed_witness :
    (("https://b.example" : String) ∉ (["https://a.example"] : List String) ∨
      (fun _ : String => [Article.mk "t" "u"]) "https://b.example" = []) ∧
    (runCheck (fun _ : String => [Article.mk "t" "u"]) ["https://a.example"]
        (fun _ => none : StateMap)).2 "https://b.example" =
      (fun _ => none : StateMap) "https://b.example" := by
  have hh : ("https://b.example" : String) ∉ (["https://a.example"] : List String) ∨
      (fun _ : String => [Article.mk "t" "u"]) "https://b.example" = [] :=
    Or.inl (by decide)
  exact ⟨hh, run_check_modifies_only_nonempty_listed (fun _ => [Article.mk "t" "u"])
    ["https://a.example"] (fun _ => none) "https://b.example" hh⟩

/-- Claim C7: running the check operation twice with the same fetch
results reports zero new articles on the second run and leaves every
stored snapshot entry equal to its value after the first run. -/
theorem run_check_idempotent (fetch : String → List Article)
    (urls : List String) (s0 : StateMap) :
    (runCheck fetch urls (runCheck fetch urls s0).2).1 = [] ∧
    ∀ k, (runCheck fetch urls (runCheck fetch urls s0).2).2 k =
      (runCheck fetch urls s0).2 k := by
  refine runCheck_stable fetch urls (runCheck fetch urls s0).2 ?_
  intro u hu
  by_cases hf : fetch u = []
  · exact Or.inl hf
  · exact Or.inr (runCheck_post fetch urls s0 u hu hf)

/-! ### Selector-loop lemmas -/

theorem tryRules_step (query : DomQuery) (sel : String) (rest : List String) :
    tryRules query (sel :: rest) =
      if ruleResult query sel = [] then tryRules query rest
      else ruleResult query sel := by
  simp only [tryRules, ruleResult]
  cases query sel with
  | error e => simp
  | ok nodes =>
    by_cases hl : jsLinks nodes = []
    · simp [hl]
    · simp [hl, isEmpty_false_of_ne_nil hl]

theorem tryRules_spec (query : DomQuery) (sels : List String) :
    ((∀ s ∈ sels, ruleResult query s = []) ∧ tryRules query sels = []) ∨
    (∃ pre sel post, sels = pre ++ sel :: post ∧
      (∀ s ∈ pre, ruleResult query s = []) ∧
      ruleResult query sel ≠ [] ∧
      tryRules query sels = ruleResult query sel) := by
  induction sels with
  | nil => exact Or.inl ⟨by simp, rfl⟩
  | cons sel rest ih =>
    by_cases he : ruleResult query sel = []
    · have hstep : tryRules query (sel :: rest) = tryRules query rest := by
        rw [tryRules_step, if_pos he]
      rcases ih with ⟨hall, hnil⟩ | ⟨pre, s0, post, heq, hpre, hne, hres⟩
      · refine Or.inl ⟨?_, by rw [hstep, hnil]⟩
        intro s hs
        rcases List.mem_cons.mp hs with h | h
        · exact h ▸ he
        · exact hall s h
      · refine Or.inr ⟨sel :: pre, s0, post, by rw [heq, List.cons_append], ?_, hne,
          by rw [hstep, hres]⟩
        intro s hs
        rcases List.mem_cons.mp hs with h | h
        · exact h ▸ he
        · exact hpre s h
    · exact Or.inr ⟨[], sel, rest, rfl, by simp, he,
        by rw [tryRules_step, if_neg he]⟩

/-- Claim C4: for every input, the article list `fetch_links` returns has
length at most 10 regardless of how many DOM matches the winning rule
produced, and on the success path it is exactly the first 10 entries (in
DOM order) of the winning rule's result list. -/
theorem fetch_links_capped (nav : Except String Unit) (url : String)
    (query : DomQuery) :
    (fetch_links nav url query).1.length ≤ 10 ∧
    (fetch_links (Except.ok ()) url query).1 =
      (tryRules query (SITE_SELECTORS (netloc url) ++ GENERIC_SELECTORS)).take 10 := by
  constructor
  · cases nav with
    | error e => simp [fetch_links]
    | ok u =>
      simp only [fetch_links]
      exact List.length_take_le 10 _
  · rfl

/-- Claim C5: link extraction tries rules in the fixed total order
"site-specific selectors in configured order, then generic selectors in
configured order"; either every rule's surviving list is empty (and the
result is empty), or there is a first rule in that order with a non-empty
surviving list and the result comes from that rule alone (truncated to
10), never merged with any later rule. -/
theorem fetch_links_rule_order (url : String) (query : DomQuery) :
    ((∀ s ∈ SITE_SELECTORS (netloc url) ++ GENERIC_SELECTORS,
        ruleResult query s = []) ∧
      (fetch_links (Except.ok ()) url query).1 = []) ∨
    (∃ pre sel post,
      SITE_SELECTORS (netloc url) ++ GENERIC_SELECTORS = pre ++ sel :: post ∧
      (∀ s ∈ pre, ruleResult query s = []) ∧
      ruleResult query sel ≠ [] ∧
      (fetch_links (Except.ok ()) url query).1 = (ruleResult query sel).take 10) := by
  have hfl : (fetch_links (Except.ok ()) url query).1 =
      (tryRules query (SITE_SELECTORS (netloc url) ++ GENERIC_SELECTORS)).take 10 := rfl
  rcases tryRules_spec query (SITE_SELECTORS (netloc url) ++ GENERIC_SELECTORS)
    with ⟨hall, hnil⟩ | ⟨pre, sel, post, heq, hpre, hne, hres⟩
  · exact Or.inl ⟨hall, by rw [hfl, hnil]; rfl⟩
  · exact Or.inr ⟨pre, sel, post, heq, hpre, hne, by rw [hfl, hres]⟩

/-- Claim C9: a rule whose DOM query throws is treated as producing zero
results for that rule only — the selector loop continues with the
remaining rules unchanged, and the error is never propagated. -/
theorem rule_query_error_skipped (query : DomQuery) (sel : String)
    (rest : List String) (h : query sel = Except.error ()) :
    tryRules query (sel :: rest) = tryRules query rest := by
  rw [tryRules_step, if_pos]
  show ruleResult query sel = []
  simp [ruleResult, h]

theorem rule_query_error_skipped_witness :
    ((fun _ => Except.error () : DomQuery) "h3 a" = Except.error ()) ∧
    tryRules (fun _ => Except.error () : DomQuery) ["h3 a", "article a"] =
      tryRules (fun _ => Except.error () : DomQuery) ["article a"] :=
  ⟨rfl, rule_query_error_skipped (fun _ => Except.error ()) "h3 a"
    ["article a"] rfl⟩

/-- Claim C6 counterexample: a failed fetch does not yield a dedicated
failure value distinct from the empty list.  At a concrete input — a
navigation timeout versus a successful fetch whose every selector matches
zero nodes — `fetch_links` hands its caller the very same empty article
list. -/
theorem fetch_failure_same_as_zero_links :
    (fetch_links (Except.error "Timeout 60000ms exceeded")
        "https://news.example.com/odd" (fun _ => Except.ok [] : DomQuery)).1 =
      (fetch_links (Except.ok ()) "https://news.example.com/odd"
        (fun _ => Except.ok [] : DomQuery)).1 ∧
    (fetch_links (Except.error "Timeout 60000ms exceeded")
        "https://news.example.com/odd" (fun _ => Except.ok [] : DomQuery)).1 =
      ([] : List Article) := by
  have hnil : ∀ sels, tryRules (fun _ => Except.ok [] : DomQuery) sels = [] := by
    intro sels
    induction sels with
    | nil => rfl
    | cons s r ih => simp [tryRules, jsLinks, ih]
  have h1 : (fetch_links (Except.error "Timeout 60000ms exceeded")
      "https://news.example.com/odd" (fun _ => Except.ok [] : DomQuery)).1 = [] := rfl
  have h2 : (fetch_links (Except.ok ()) "https://news.example.com/odd"
      (fun _ => Except.ok [] : DomQuery)).1 = [] := by
    show (tryRules (fun _ => Except.ok [] : DomQuery)
      (SITE_SELECTORS (netloc "https://news.example.com/odd") ++
        GENERIC_SELECTORS)).take 10 = []
    rw [hnil]
    rfl
  exact ⟨h1.trans h2.symm, h1⟩

/-- Claim C6 amended: on a fetch/navigation failure `fetch_links` returns
the empty article list — the same value a successful extraction with zero
links returns — and signals the failure only through the Streamlit UI
error message (`st.error`), which is absent on the success path; the
caller of the returned list cannot distinguish the two outcomes. -/
theorem fetch_failure_ui_signal_only (e url : String) (query : DomQuery) :
    (fetch_links (Except.error e) url query).1 = [] ∧
    (fetch_links (Except.error e) url query).2 =
      some ("Error scraping " ++ url ++ ": " ++ e) ∧
    (fetch_links (Except.ok ()) url query).2 = none :=
  ⟨rfl, rfl, rfl⟩

/-- Claim C8: the content-rendering operations are total from the
caller's perspective: `fetch_article_reader_mode` returns the pipeline's
html when every step succeeds and otherwise the fallback string that
embeds the error message, and `fetch_article_html` likewise returns the
fetched html or the fallback embedding the error message — never a
propagated exception. -/
theorem content_render_total (nav : Except String String)
    (doc : String → Except String (String × String))
    (soup : String → Except String String) (navH : Except String String) :
    ((∃ body, readerPipeline nav doc soup = Except.ok body ∧
        fetch_article_reader_mode nav doc soup = body) ∨
      (∃ e, readerPipeline nav doc soup = Except.error e ∧
        fetch_article_reader_mode nav doc soup = errorFallback e ∧
        ∃ p q, fetch_article_reader_mode nav doc soup = p ++ e ++ q)) ∧
    ((∃ html, navH = Except.ok html ∧ fetch_article_html navH = html) ∨
      (∃ e, navH = Except.error e ∧ fetch_article_html navH = errorFallback e ∧
        ∃ p q, fetch_article_html navH = p ++ e ++ q)) := by
  constructor
  · cases hp : readerPipeline nav doc soup with
    | ok s =>
      exact Or.inl ⟨s, rfl, by simp [fetch_article_reader_mode, hp]⟩
    | error e =>
      have hr : fetch_article_reader_mode nav doc soup = errorFallback e := by
        simp [fetch_article_reader_mode, hp]
      exact Or.inr ⟨e, rfl, hr, "<p>Error loading article: ", "</p>", hr⟩
  · cases navH with
    | ok html => exact Or.inl ⟨html, rfl, rfl⟩
    | error e => exact Or.inr ⟨e, rfl, rfl, "<p>Error loading article: ", "</p>", rfl⟩
